import Mathlib

/-!
Shallow embedding of the `optional<T>` container of the optionalcpp
repository (`include/optional.hpp`, final revision, together with the
`reset()` member shown in `docs/_posts/2023-02-24-reset.md` and the
`nullopt` comparison overloads of the post "A null pointer for optional").

The C++ object is a boolean discriminant `mHasValue` next to a raw,
suitably aligned byte buffer `mBuffer`.  The buffer is modelled by an
`Option T`: `some v` when a live `T` with value `v` occupies the storage,
`none` when the storage holds no live object.  Dereferencing the buffer
(`operator*`, a `reinterpret_cast` of the raw bytes) is defined for every
state; on dead storage it yields an unspecified junk value, modelled by
`default`.  Every mutating operation additionally returns the list of
lifetime events it performed on `T` objects (placement construction,
destructor call, `T`-assignment, `T`-swap), so that claims about *how* a
state is reached (assign-through versus destroy-and-reconstruct) are
statable.
-/

namespace OptionalCpp

/-- Lifetime events performed on contained `T` objects: placement
construction (`new (&mBuffer.mStorage) T(other)`), destructor invocation
(`->~T()`), assignment through `T`'s `operator=`, and `std::swap` on two
live `T` objects. -/
inductive TEvent where
  | construct
  | destruct
  | assignVal
  | swapVal
deriving DecidableEq, Repr

/-- State of an `optional<T>` object: the discriminant `mHasValue` and the
contents of the storage buffer `mBuffer` (`some v` iff a live `T` of value
`v` occupies it). -/
structure optional (T : Type) where
  mHasValue : Bool
  mBuffer : Option T
deriving DecidableEq, Repr

/-- The exception type `class bad_optional_access : public std::exception`. -/
inductive bad_optional_access where
  | mk
deriving DecidableEq, Repr

variable {T : Type}

namespace optional

/-- The consistency invariant of the data model: the discriminant is true
iff exactly one live `T` occupies the storage buffer. -/
def wf (a : optional T) : Prop := a.mHasValue = a.mBuffer.isSome

instance (a : optional T) : Decidable a.wf := by
  unfold wf; infer_instance

/-- Dereference `operator*`: `*reinterpret_cast<const T*>(&mBuffer)`.  Reading dead
storage is undefined behaviour in C++; the model returns the junk value
`default` there. -/
def deref [Inhabited T] (a : optional T) : T := a.mBuffer.getD default

/-- Private member `constructValue(const T& other)`: placement-constructs a
copy of `other` in the buffer and sets `mHasValue = true`. -/
def constructValue (a : optional T) (v : T) : optional T × List TEvent :=
  ({ a with mBuffer := some v, mHasValue := true }, [.construct])

/-- Private member `destructValue()`: invokes the destructor of the object
in the buffer and sets `mHasValue = false`. -/
def destructValue (a : optional T) : optional T × List TEvent :=
  ({ a with mBuffer := none, mHasValue := false }, [.destruct])

/-- Default constructor `optional() : mHasValue(false) {}`.  The buffer is
raw storage holding no live object. -/
def defaultCtor : optional T := { mHasValue := false, mBuffer := none }

/-- Value constructor `optional(const T& value) { constructValue(value); }`. -/
def valueCtor (v : T) : optional T × List TEvent :=
  constructValue { mHasValue := false, mBuffer := none } v

/-- Copy constructor: sets `mHasValue` from `other.mHasValue` and,
when `other` is engaged, placement-constructs a copy of `*other`. -/
def copyCtor [Inhabited T] (other : optional T) : optional T × List TEvent :=
  let a : optional T := { mHasValue := other.mHasValue, mBuffer := none }
  if other.mHasValue then a.constructValue other.deref else (a, [])

/-- Copy assignment `operator=(const optional& other)`: four-way branch on
the two discriminants, using `T`-assignment (`*(*this) = *other`) when both
are engaged. -/
def assign [Inhabited T] (a other : optional T) : optional T × List TEvent :=
  if a.mHasValue && other.mHasValue then
    ({ a with mBuffer := some other.deref }, [.assignVal])
  else if other.mHasValue then
    a.constructValue other.deref
  else if a.mHasValue then
    a.destructValue
  else
    (a, [])

/-- Destructor `~optional()`: destroys the contained object iff engaged. -/
def destroy (a : optional T) : optional T × List TEvent :=
  if a.mHasValue then a.destructValue else (a, [])

/-- Member `reset()` (from the post "reset"): destroys the contained value
when engaged, otherwise does nothing. -/
def reset (a : optional T) : optional T × List TEvent :=
  if a.mHasValue then a.destructValue else (a, [])

/-- Observer `has_value()` (and `operator bool`). -/
def has_value (a : optional T) : Bool := a.mHasValue

/-- Private member `throwInCaseOfBadAccess()`: throws iff `mHasValue` is
false. -/
def throwInCaseOfBadAccess (a : optional T) :
    Except bad_optional_access Unit :=
  if !a.mHasValue then .error .mk else .ok ()

/-- Wide-contract accessor `value()`: checks for bad access, then
dereferences.  A const member: the second component is the (unchanged)
state after the call. -/
def value [Inhabited T] (a : optional T) :
    Except bad_optional_access T × optional T :=
  match a.throwInCaseOfBadAccess with
  | .error e => (.error e, a)
  | .ok _ => (.ok a.deref, a)

/-- Member `swap(optional& other)`: three-way branch, exchanging values via
`std::swap` when both are engaged and transferring by
copy-construct-then-destroy when exactly one side is engaged.  The free
function `swap(a, b)` delegates to `a.swap(b)`. -/
def swap [Inhabited T] (a b : optional T) :
    (optional T × optional T) × List TEvent :=
  if a.mHasValue && b.mHasValue then
    (({ a with mBuffer := some b.deref }, { b with mBuffer := some a.deref }),
      [.swapVal])
  else if a.mHasValue then
    let pb := b.constructValue a.deref
    let pa := a.destructValue
    ((pa.1, pb.1), pb.2 ++ pa.2)
  else if b.mHasValue then
    let pa := a.constructValue b.deref
    let pb := b.destructValue
    ((pa.1, pb.1), pa.2 ++ pb.2)
  else
    ((a, b), [])

end optional

/-- The sentinel type `struct nullopt_t {};` of the post "A null pointer
for optional". -/
structure nullopt_t where

/-- The sentinel constant `const nullopt_t nullopt;`. -/
def nullopt : nullopt_t := {}

namespace optional

/-- Homogeneous `operator==(const optional& a, const optional& b)`. -/
def eqOpt [DecidableEq T] [Inhabited T] (a b : optional T) : Bool :=
  if a.mHasValue && b.mHasValue then a.deref == b.deref
  else !a.mHasValue && !b.mHasValue

/-- Heterogeneous `operator==(const optional& a, const U& b)` (modelled at
`U = T`): empty compares unequal, otherwise compare the contained value. -/
def eqOptVal [DecidableEq T] [Inhabited T] (a : optional T) (b : T) : Bool :=
  if !a.mHasValue then false else a.deref == b

/-- Heterogeneous `operator==(const U& a, const optional& b)`: delegates to
`b == a`. -/
def eqValOpt [DecidableEq T] [Inhabited T] (a : T) (b : optional T) : Bool :=
  b.eqOptVal a

/-- Homogeneous `operator<(const optional& a, const optional& b)`. -/
def ltOpt [LT T] [DecidableRel (LT.lt (α := T))] [Inhabited T]
    (a b : optional T) : Bool :=
  if a.mHasValue && b.mHasValue then decide (a.deref < b.deref)
  else !a.mHasValue && b.mHasValue

/-- Heterogeneous `operator<(const optional& a, const U& b)`: an empty
optional is less than every bare value. -/
def ltOptVal [LT T] [DecidableRel (LT.lt (α := T))] [Inhabited T]
    (a : optional T) (b : T) : Bool :=
  if !a.mHasValue then true else decide (a.deref < b)

/-- Heterogeneous `operator<(const U& a, const optional& b)`: no bare value
is less than an empty optional. -/
def ltValOpt [LT T] [DecidableRel (LT.lt (α := T))] [Inhabited T]
    (a : T) (b : optional T) : Bool :=
  if !b.mHasValue then false else decide (a < b.deref)

/-- Overload `operator==(nullopt_t, const optional& b)`: true iff `b` is empty. -/
def eqNulloptOpt (x : nullopt_t) (b : optional T) : Bool := !b.mHasValue

/-- Overload `operator==(const optional& a, nullopt_t)`: delegates to
`nullopt == a`. -/
def eqOptNullopt (a : optional T) (x : nullopt_t) : Bool := eqNulloptOpt x a

/-- Overload `operator<(nullopt_t, const optional& b)`: true iff `b` is engaged. -/
def ltNulloptOpt (x : nullopt_t) (b : optional T) : Bool := b.mHasValue

/-- Overload `operator<(const optional& a, nullopt_t)`: always false. -/
def ltOptNullopt (a : optional T) (x : nullopt_t) : Bool := false

end optional

/-!
Model of the aligned-storage helpers (`alignment_probe`, `alignment_of`,
`type_with_alignment`, `aligned_storage`, lines 6-54 of the header).  A C++
type is abstracted by its layout: `sizeof` and `alignof`, with the usual
platform facts `alignof ∣ sizeof`, alignments are powers of two, and on the
modelled LP64 platform `char/short/int/long` have alignment `1/2/4/8` and
`max_align_t = union { long long; long double }` has alignment 16.
Struct layout follows the standard rules: each member is placed at its
offset rounded up to its alignment, the struct's alignment is the maximum
member alignment, and the total size is rounded up to that alignment; a
union overlays its members at offset 0.
-/

/-- Layout of a C++ type: `sizeof` and `alignof` in bytes. -/
structure CLayout where
  size : Nat
  align : Nat
deriving DecidableEq, Repr

/-- Round `n` up to the next multiple of `a`. -/
def roundUp (n a : Nat) : Nat := (n + a - 1) / a * a

/-- Layout of `bool` on the modelled platform. -/
def boolLayout : CLayout := ⟨1, 1⟩

/-- Layout of `char`. -/
def charLayout : CLayout := ⟨1, 1⟩

/-- Layout of `short`. -/
def shortLayout : CLayout := ⟨2, 2⟩

/-- Layout of `int`. -/
def intLayout : CLayout := ⟨4, 4⟩

/-- Layout of `long` (LP64). -/
def longLayout : CLayout := ⟨8, 8⟩

/-- Layout of `long long`. -/
def longlongLayout : CLayout := ⟨8, 8⟩

/-- Layout of `long double` (x86-64). -/
def longdoubleLayout : CLayout := ⟨16, 16⟩

/-- Layout of a two-member struct `{ A a; B b; }`: `b` is placed at
`sizeof(A)` rounded up to `alignof(B)`, the alignment is the larger member
alignment, and the size is padded to a multiple of it. -/
def structLayout2 (a b : CLayout) : CLayout :=
  let off := roundUp a.size b.align
  let al := max a.align b.align
  ⟨roundUp (off + b.size) al, al⟩

/-- Offset of the second member of a two-member struct. -/
def structOffset2 (a b : CLayout) : Nat := roundUp a.size b.align

/-- Layout of a two-member union: members overlay at offset 0. -/
def unionLayout2 (a b : CLayout) : CLayout :=
  let al := max a.align b.align
  ⟨roundUp (max a.size b.size) al, al⟩

/-- Layout of `union max_align_t { long long ll; long double ld; }`. -/
def max_align_t : CLayout := unionLayout2 longlongLayout longdoubleLayout

/-- Layout of `struct alignment_probe<T> { bool x; T probee; }`. -/
def alignment_probe (t : CLayout) : CLayout := structLayout2 boolLayout t

/-- The alignment probe `alignment_of<T>::value =
sizeof(alignment_probe<T>) - sizeof(T)`. -/
def alignment_of (t : CLayout) : Nat := (alignment_probe t).size - t.size

/-- Specializations `type_with_alignment<N>::type`: the primary template yields
`max_align_t`; the explicit specializations at `alignment_of` of
`char`, `short`, `int` and `long` yield those types. -/
def type_with_alignment (n : Nat) : CLayout :=
  if n = alignment_of charLayout then charLayout
  else if n = alignment_of shortLayout then shortLayout
  else if n = alignment_of intLayout then intLayout
  else if n = alignment_of longLayout then longLayout
  else max_align_t

/-- Layout of `aligned_storage<Size, Alignment>`: an anonymous union of
`char mStorage[Size]` and a `type_with_alignment<Alignment>::type` dummy. -/
def aligned_storage (siz alignment : Nat) : CLayout :=
  unionLayout2 ⟨siz, 1⟩ (type_with_alignment alignment)

/-- Size in bytes of the `mStorage` member of `aligned_storage`. -/
def aligned_storage_mStorage_size (siz alignment : Nat) : Nat := siz

/-- Offset of the `mStorage` member inside `aligned_storage` (a union
member, hence 0: its address is the address of the whole object). -/
def aligned_storage_mStorage_offset (siz alignment : Nat) : Nat := 0

/-! ## Theorems -/

/-- C1: every public operation of `optional<T>` (default construction,
value construction, copy construction, copy assignment, reset, swap,
destruction, and the `value` accessor) leaves the discriminant `mHasValue`
true iff exactly one live `T` occupies the storage buffer, provided the
operands satisfied that consistency before the operation. -/
theorem c1_discriminant_storage_consistent [Inhabited T]
    (a b : optional T) (v : T) (ha : a.wf) (hb : b.wf) :
    (optional.defaultCtor (T := T)).wf ∧
    (optional.valueCtor v).1.wf ∧
    a.copyCtor.1.wf ∧
    (a.assign b).1.wf ∧
    a.reset.1.wf ∧
    (a.swap b).1.1.wf ∧ (a.swap b).1.2.wf ∧
    a.destroy.1.wf ∧
    a.value.2.wf := by
  obtain ⟨ah, ab⟩ := a
  obtain ⟨bh, bb⟩ := b
  simp only [optional.wf] at *
  cases ah <;> cases bh <;>
    simp_all [optional.defaultCtor, optional.valueCtor, optional.copyCtor,
      optional.assign, optional.reset, optional.swap, optional.destroy,
      optional.value, optional.constructValue, optional.destructValue,
      optional.deref, optional.throwInCaseOfBadAccess]

theorem c1_discriminant_storage_consistent_witness :
    ((⟨true, some 1⟩ : optional Nat).assign ⟨false, none⟩).1.wf :=
  (c1_discriminant_storage_consistent ⟨true, some 1⟩ ⟨false, none⟩ 0
    (by decide) (by decide)).2.2.2.1

/-- C2: a default-constructed optional is Empty; the wide accessor
`value()` reports `bad_optional_access` exactly when called on an Empty
optional, returns the contained value when Engaged, and never changes the
state of the optional. -/
theorem c2_value_bad_access_iff_empty [Inhabited T] (a : optional T) (v : T) :
    (optional.defaultCtor (T := T)).has_value = false ∧
    a.value.2 = a ∧
    (a.value.1 = Except.error bad_optional_access.mk ↔ a.mHasValue = false) ∧
    (a.mHasValue = true → a.mBuffer = some v → a.value.1 = Except.ok v) := by
  obtain ⟨ah, ab⟩ := a
  cases ah <;>
    simp_all [optional.defaultCtor, optional.has_value, optional.value,
      optional.throwInCaseOfBadAccess, optional.deref]

theorem c2_value_bad_access_iff_empty_witness :
    ((⟨true, some 5⟩ : optional Nat)).value.1 = Except.ok 5 :=
  (c2_value_bad_access_iff_empty ⟨true, some 5⟩ 5).2.2.2 rfl rfl

/-- C3: copy assignment follows the four-case state table: Engaged/Engaged
updates through `T`-assignment (a single `assignVal` event, no
destruction or reconstruction); Empty/Engaged placement-constructs a copy;
Engaged/Empty destroys the contained value; Empty/Empty is a no-op.  In
every case the target's discriminant afterwards equals the source's. -/
theorem c3_assign_state_table [Inhabited T] (a b : optional T) :
    (a.mHasValue = true → b.mHasValue = true →
      a.assign b = ({ a with mBuffer := some b.deref }, [TEvent.assignVal])) ∧
    (a.mHasValue = false → b.mHasValue = true →
      a.assign b =
        ({ mHasValue := true, mBuffer := some b.deref }, [TEvent.construct])) ∧
    (a.mHasValue = true → b.mHasValue = false →
      a.assign b = ({ mHasValue := false, mBuffer := none }, [TEvent.destruct])) ∧
    (a.mHasValue = false → b.mHasValue = false → a.assign b = (a, [])) ∧
    (a.assign b).1.mHasValue = b.mHasValue := by
  obtain ⟨ah, ab⟩ := a
  obtain ⟨bh, bb⟩ := b
  cases ah <;> cases bh <;>
    simp_all [optional.assign, optional.constructValue, optional.destructValue,
      optional.deref]

theorem c3_assign_state_table_witness :
    (⟨true, some 1⟩ : optional Nat).assign ⟨true, some 2⟩ =
      (⟨true, some 2⟩, [TEvent.assignVal]) := by
  have h := (c3_assign_state_table
    (⟨true, some 1⟩ : optional Nat) ⟨true, some 2⟩).1 rfl rfl
  simpa using h

/-- C4: comparison of optionals is the order on `{Empty, Engaged(v)}`
lifted from `T`: two Empty optionals are equal, Empty is strictly below
every Engaged optional, Engaged optionals compare by contained value, and
for `x < y` the chain `optional() < optional(x) < optional(y)` holds. -/
theorem c4_comparison_lifted_order [DecidableEq T] [LT T]
    [DecidableRel (LT.lt (α := T))] [Inhabited T]
    (a b : optional T) (x y : T) :
    (a.eqOpt b = true ↔
      (a.mHasValue = false ∧ b.mHasValue = false) ∨
      (a.mHasValue = true ∧ b.mHasValue = true ∧ a.deref = b.deref)) ∧
    (a.ltOpt b = true ↔
      (a.mHasValue = false ∧ b.mHasValue = true) ∨
      (a.mHasValue = true ∧ b.mHasValue = true ∧ a.deref < b.deref)) ∧
    (x < y →
      (optional.defaultCtor (T := T)).ltOpt (optional.valueCtor x).1 = true ∧
      (optional.valueCtor x).1.ltOpt (optional.valueCtor y).1 = true) := by
  obtain ⟨ah, ab⟩ := a
  obtain ⟨bh, bb⟩ := b
  cases ah <;> cases bh <;>
    simp_all [optional.eqOpt, optional.ltOpt, optional.defaultCtor,
      optional.valueCtor, optional.constructValue, optional.deref]

theorem c4_comparison_lifted_order_witness :
    (optional.defaultCtor (T := Nat)).ltOpt (optional.valueCtor 1).1 = true ∧
    (optional.valueCtor (1 : Nat)).1.ltOpt (optional.valueCtor 2).1 = true :=
  (c4_comparison_lifted_order (optional.defaultCtor (T := Nat))
    optional.defaultCtor 1 2).2.2 (by decide)

/-- C5: the copy constructor replicates the discriminant and produces an
optional equal (under `operator==`) to its source, whether the source is
Empty or Engaged. -/
theorem c5_copy_round_trip [DecidableEq T] [Inhabited T] (o : optional T) :
    o.copyCtor.1.eqOpt o = true ∧ o.copyCtor.1.mHasValue = o.mHasValue := by
  obtain ⟨oh, ob⟩ := o
  cases oh <;>
    simp_all [optional.copyCtor, optional.constructValue, optional.eqOpt,
      optional.deref]

/-- C6: swap follows the four-case table (both Engaged: one `T`-swap event
exchanging the contained values, discriminants stay true; both Empty:
no-op; mixed: copy-construct into the empty side then destroy the engaged
side, flipping both discriminants), the result is symmetric in which side
initiates, and swapping twice restores the original states. -/
theorem c6_swap_table [Inhabited T] (a b : optional T) :
    (a.mHasValue = true → b.mHasValue = true →
      a.swap b = (({ a with mBuffer := some b.deref },
        { b with mBuffer := some a.deref }), [TEvent.swapVal])) ∧
    (a.mHasValue = false → b.mHasValue = false → a.swap b = ((a, b), [])) ∧
    (a.mHasValue = true → b.mHasValue = false →
      a.swap b = ((⟨false, none⟩, ⟨true, some a.deref⟩),
        [TEvent.construct, TEvent.destruct])) ∧
    (a.mHasValue = false → b.mHasValue = true →
      a.swap b = ((⟨true, some b.deref⟩, ⟨false, none⟩),
        [TEvent.construct, TEvent.destruct])) ∧
    (b.swap a).1 = ((a.swap b).1.2, (a.swap b).1.1) ∧
    (a.wf → b.wf → ((a.swap b).1.1.swap (a.swap b).1.2).1 = (a, b)) := by
  obtain ⟨ah, ab⟩ := a
  obtain ⟨bh, bb⟩ := b
  simp only [optional.wf]
  cases ah <;> cases bh <;> cases ab <;> cases bb <;>
    simp_all [optional.swap, optional.constructValue, optional.destructValue,
      optional.deref]

theorem c6_swap_table_witness :
    (((⟨true, some 7⟩ : optional Nat).swap ⟨false, none⟩).1.1.swap
      ((⟨true, some 7⟩ : optional Nat).swap ⟨false, none⟩).1.2).1 =
      (⟨true, some 7⟩, ⟨false, none⟩) :=
  (c6_swap_table (⟨true, some 7⟩ : optional Nat) ⟨false, none⟩).2.2.2.2.2
    (by decide) (by decide)

/-- C7: `reset()` destroys the contained value when Engaged and does
nothing when Empty; afterwards the discriminant is always false, and
resetting twice yields the same state as resetting once. -/
theorem c7_reset_idempotent (a : optional T) :
    (a.mHasValue = true → a.reset = (⟨false, none⟩, [TEvent.destruct])) ∧
    (a.mHasValue = false → a.reset = (a, [])) ∧
    a.reset.1.mHasValue = false ∧
    a.reset.1.reset.1 = a.reset.1 := by
  obtain ⟨ah, ab⟩ := a
  cases ah <;>
    simp_all [optional.reset, optional.destructValue]

theorem c7_reset_idempotent_witness :
    (⟨true, some 3⟩ : optional Nat).reset = (⟨false, none⟩, [TEvent.destruct]) :=
  (c7_reset_idempotent (⟨true, some 3⟩ : optional Nat)).1 rfl

/-- C8: each heterogeneous comparison overload agrees with the
homogeneous comparison against an Engaged optional wrapping the bare
value, and each `nullopt` overload agrees with the comparison against an
Empty optional. -/
theorem c8_heterogeneous_comparisons [DecidableEq T] [LT T]
    [DecidableRel (LT.lt (α := T))] [Inhabited T] (a : optional T) (v : T) :
    a.eqOptVal v = a.eqOpt (optional.valueCtor v).1 ∧
    optional.eqValOpt v a = (optional.valueCtor v).1.eqOpt a ∧
    a.ltOptVal v = a.ltOpt (optional.valueCtor v).1 ∧
    optional.ltValOpt v a = (optional.valueCtor v).1.ltOpt a ∧
    optional.eqNulloptOpt nullopt a =
      (optional.defaultCtor (T := T)).eqOpt a ∧
    a.eqOptNullopt nullopt = a.eqOpt optional.defaultCtor ∧
    optional.ltNulloptOpt nullopt a =
      (optional.defaultCtor (T := T)).ltOpt a ∧
    a.ltOptNullopt nullopt = a.ltOpt optional.defaultCtor := by
  obtain ⟨ah, ab⟩ := a
  cases ah <;>
    simp_all [optional.eqOptVal, optional.eqValOpt, optional.ltOptVal,
      optional.ltValOpt, optional.eqNulloptOpt, optional.eqOptNullopt,
      optional.ltNulloptOpt, optional.ltOptNullopt, optional.eqOpt,
      optional.ltOpt, optional.valueCtor, optional.constructValue,
      optional.defaultCtor, optional.deref, eq_comm]

/-- Rounding a multiple of `a` up to a multiple of `a` is the identity. -/
theorem roundUp_mul (a k : Nat) (hpos : 0 < a) : roundUp (a * k) a = a * k := by
  unfold roundUp
  have h1 : (a * k + a - 1) / a = k := by
    rcases Nat.eq_zero_or_pos k with hk | hk
    · subst hk
      simp only [Nat.mul_zero, Nat.zero_add]
      rw [Nat.div_eq_of_lt (by omega)]
    · have h2 : a * k + a - 1 = a * k + (a - 1) := by omega
      rw [h2, Nat.mul_add_div hpos, Nat.div_eq_of_lt (by omega), Nat.add_zero]
  rw [h1, Nat.mul_comm]

/-- Rounding 1 up to a positive alignment gives that alignment. -/
theorem roundUp_one (a : Nat) (hpos : 0 < a) : roundUp 1 a = a := by
  unfold roundUp
  rw [show 1 + a - 1 = a by omega, Nat.div_self hpos, Nat.one_mul]

/-- The probe `alignment_of<T>::value` computes `alignof(T)` for every
layout obeying the platform facts `0 < alignof(T)` and
`alignof(T) ∣ sizeof(T)`. -/
theorem alignment_of_spec (s a : Nat) (hpos : 0 < a) (hdvd : a ∣ s) :
    alignment_of ⟨s, a⟩ = a := by
  obtain ⟨k, rfl⟩ := hdvd
  unfold alignment_of alignment_probe structLayout2 boolLayout
  simp only [Nat.max_eq_right hpos]
  rw [roundUp_one a hpos, show a + a * k = a * (1 + k) by ring,
    roundUp_mul a (1 + k) hpos, Nat.mul_add, Nat.mul_one, Nat.add_sub_cancel]

/-- C9: for every contained type whose alignment divides the maximal
platform alignment 16 and divides its size, the `alignment_of` probe
computes exactly `alignof(T)`, the `aligned_storage` member `mStorage`
provides exactly `sizeof(T)` bytes at offset 0 of the union, and the
alignment of the `aligned_storage` object (hence the address of
`mStorage`) is a multiple of `alignof(T)`, so placement-construction of
`T` there is valid. -/
theorem c9_aligned_storage_layout (t : CLayout)
    (h16 : t.align ∣ 16) (hdvd : t.align ∣ t.size) :
    alignment_of t = t.align ∧
    aligned_storage_mStorage_size t.size (alignment_of t) = t.size ∧
    aligned_storage_mStorage_offset t.size (alignment_of t) = 0 ∧
    t.align ∣ (aligned_storage t.size (alignment_of t)).align := by
  obtain ⟨s, a⟩ := t
  have h16a : a ∣ 16 := h16
  have hpos : 0 < a := Nat.pos_of_dvd_of_pos h16a (by norm_num)
  have hao : alignment_of ⟨s, a⟩ = a := alignment_of_spec s a hpos hdvd
  refine ⟨hao, rfl, rfl, ?_⟩
  simp only [hao]
  have h5 : a = 1 ∨ a = 2 ∨ a = 4 ∨ a = 8 ∨ a = 16 := by
    have hle : a ≤ 16 := Nat.le_of_dvd (by norm_num) h16a
    interval_cases a <;> revert h16a <;> decide
  rcases h5 with rfl | rfl | rfl | rfl | rfl <;>
    simp [aligned_storage, unionLayout2, type_with_alignment] <;> decide

theorem c9_aligned_storage_layout_witness :
    alignment_of ⟨4, 4⟩ = 4 ∧
    aligned_storage_mStorage_size 4 (alignment_of ⟨4, 4⟩) = 4 ∧
    aligned_storage_mStorage_offset 4 (alignment_of ⟨4, 4⟩) = 0 ∧
    (4 : Nat) ∣ (aligned_storage 4 (alignment_of ⟨4, 4⟩)).align :=
  c9_aligned_storage_layout ⟨4, 4⟩ (by decide) (by decide)

/-- C10: self-assignment is safe: on a consistent state, `a = a` leaves
both the discriminant and the contained value unchanged (the
Engaged/Engaged branch assigns the contained value to itself, the
Empty/Empty branch does nothing). -/
theorem c10_self_assign [Inhabited T] (a : optional T) (h : a.wf) :
    (a.assign a).1 = a := by
  obtain ⟨ah, ab⟩ := a
  simp only [optional.wf] at h
  cases ah <;> cases ab <;>
    simp_all [optional.assign, optional.constructValue, optional.destructValue,
      optional.deref]

theorem c10_self_assign_witness :
    ((⟨true, some 9⟩ : optional Nat).assign ⟨true, some 9⟩).1 = ⟨true, some 9⟩ :=
  c10_self_assign (⟨true, some 9⟩ : optional Nat) (by decide)

end OptionalCpp
